import Mathlib

/-!
Verification of the movies API client module
(src/movies-next-app/src/app/modules/movies-overview/movies-overview.tsx,
API-access part: the movies-api.server module).

The module's fetch functions receive a parsed JSON payload, classify it with
JavaScript-style type guards, and either return a validated value or throw an
error.  We embed JavaScript values as a `Json` inductive type (with an
`undefined` constructor, since the environment variable read at module load can
be undefined), model JS truthiness, `typeof`, the `in` operator, `Array.isArray`
and template-literal stringification, and translate each guard and fetch
function directly from the source.  Network transport is abstracted: each fetch
function takes the already-parsed payload as an argument and returns an
`Except String` outcome (a thrown `Error` message on the left) together with
the list of `console.error` records it emitted.
-/

/-- JavaScript values as produced by `JSON.parse`, plus `undefined` for the
module-load environment read. -/
inductive Json where
  | undefined
  | null
  | bool (b : Bool)
  | num (n : Int)
  | str (s : String)
  | arr (elems : List Json)
  | obj (fields : List (String × Json))

/-- JavaScript truthiness: `!!x`. -/
def truthy : Json → Bool
  | .undefined => false
  | .null => false
  | .bool b => b
  | .num n => n != 0
  | .str s => s != ""
  | .arr _ => true
  | .obj _ => true

/-- The test `typeof x === "object"` (true for objects, arrays and `null`). -/
def isObjectType : Json → Bool
  | .null => true
  | .arr _ => true
  | .obj _ => true
  | _ => false

/-- The test `typeof x === "string"`. -/
def isStringType : Json → Bool
  | .str _ => true
  | _ => false

/-- `Array.isArray x`. -/
def isArray : Json → Bool
  | .arr _ => true
  | _ => false

/-- First-match lookup in an object's field list (`JSON.parse` never produces
duplicate keys, so first-match agrees with JS property lookup). -/
def lookupField : List (String × Json) → String → Option Json
  | [], _ => none
  | (k, v) :: rest, key => if k == key then some v else lookupField rest key

/-- Decimal digit test on a character. -/
def isDigitChar (c : Char) : Bool :=
  48 ≤ c.toNat && c.toNat ≤ 57

/-- Value of a decimal digit string, with accumulator. -/
def decimalValueAux (acc : Nat) : List Char → Nat
  | [] => acc
  | c :: rest => decimalValueAux (acc * 10 + (c.toNat - 48)) rest

/-- Interpret a property key as an array index when it is all digits. -/
def arrayIndexKey? (key : String) : Option Nat :=
  if !key.data.isEmpty && key.data.all isDigitChar then
    some (decimalValueAux 0 key.data)
  else
    none

/-- JS property access `x[key]`: `none` models `undefined`/absence.  On arrays,
numeric index keys and `length` are present, as for the `in` operator. -/
def getKey : Json → String → Option Json
  | .obj fs, key => lookupField fs key
  | .arr xs, key =>
      if key == "length" then some (.num xs.length)
      else
        match arrayIndexKey? key with
        | some i => xs.get? i
        | none => none
  | _, _ => none

/-- The JS `key in x` test (own properties of the modelled JSON values). -/
def hasKey (j : Json) (key : String) : Bool :=
  (getKey j key).isSome

mutual

/-- JS string conversion as performed by a template literal:
numbers print in decimal, arrays join their elements with commas
(with `null`/`undefined` elements becoming empty), plain objects
print as the object placeholder. -/
def jsToString : Json → String
  | .undefined => "undefined"
  | .null => "null"
  | .bool b => if b then "true" else "false"
  | .num n => toString n
  | .str s => s
  | .arr xs => String.intercalate "," (jsToStringElems xs)
  | .obj _ => "[object Object]"

/-- Element-wise conversion used by `Array.prototype.join`. -/
def jsToStringElems : List Json → List String
  | [] => []
  | .null :: rest => "" :: jsToStringElems rest
  | .undefined :: rest => "" :: jsToStringElems rest
  | x :: rest => jsToString x :: jsToStringElems rest

end

/-- Source guard `isErrorResponse`: truthy, of object type, and has both
`status_code` and `status_message` keys. -/
def isErrorResponse (data : Json) : Bool :=
  truthy data && isObjectType data &&
    hasKey data "status_code" && hasKey data "status_message"

/-- Source guard `isMoviesData`: truthy, of object type, has a `results` key
whose value is an array. -/
def isMoviesData (data : Json) : Bool :=
  truthy data && isObjectType data && hasKey data "results" &&
    (match getKey data "results" with
     | some v => isArray v
     | none => false)

/-- Source guard `isMoviesAPIConfiguration`: truthy object with a truthy
object-typed `images` field carrying a string `base_url`. -/
def isMoviesAPIConfiguration (data : Json) : Bool :=
  truthy data && isObjectType data && hasKey data "images" &&
    (match getKey data "images" with
     | some images =>
         truthy images && isObjectType images && hasKey images "base_url" &&
           (match getKey images "base_url" with
            | some b => isStringType b
            | none => false)
     | none => false)

/-- Per-element check of the source guard `isLanguageArray`: truthy object with
`english_name`, `iso_639_1` and `name` keys. -/
def isLanguageItem (item : Json) : Bool :=
  truthy item && isObjectType item && hasKey item "english_name" &&
    hasKey item "iso_639_1" && hasKey item "name"

/-- Source guard `isLanguageArray`: a truthy array all of whose elements pass
`isLanguageItem`. -/
def isLanguageArray (data : Json) : Bool :=
  truthy data && isArray data &&
    (match data with
     | .arr xs => xs.all isLanguageItem
     | _ => false)

/-- The module-level constant `baseUrl`. -/
def baseUrl : String := "https://api.themoviedb.org/3"

/-- The closed `Endpoint` union of the source. -/
inductive Endpoint where
  | popular
  | top_rated
  | upcoming
  | now_playing

/-- The path segment each endpoint contributes to the URL. -/
def Endpoint.toApiString : Endpoint → String
  | .popular => "popular"
  | .top_rated => "top_rated"
  | .upcoming => "upcoming"
  | .now_playing => "now_playing"

/-- The error message built by
`new Error(\x7b...\x7ddata.status_code: data.status_message...)` via the
template literal. -/
def apiErrorMessage (data : Json) : String :=
  jsToString ((getKey data "status_code").getD .undefined) ++ ": " ++
    jsToString ((getKey data "status_message").getD .undefined)

/-- Outcome of one fetch call on a given payload: the returned value or the
thrown error message, together with the `console.error` records emitted
(each a URL plus the offending payload). -/
structure Response (α : Type) where
  result : Except String α
  log : List (String × Json)

/-- The request URL built by `fetchMovies`. -/
def fetchMoviesUrl (endpoint : Endpoint) (apiKey languageCode : String) : String :=
  baseUrl ++ "/movie/" ++ endpoint.toApiString ++ "?api_key=" ++ apiKey ++
    "&language=" ++ languageCode

/-- The `results` field extracted by `fetchMovies` on its success branch
(the guard guarantees it is an array). -/
def resultsList (data : Json) : List Json :=
  match getKey data "results" with
  | some (.arr xs) => xs
  | _ => []

/-- Source `fetchMovies`, with transport abstracted: given the parsed payload,
classify and produce the outcome.  The unexpected branch logs the URL and the
payload before throwing. -/
def fetchMovies (endpoint : Endpoint) (apiKey languageCode : String)
    (data : Json) : Response (List Json) :=
  let url := fetchMoviesUrl endpoint apiKey languageCode
  if isErrorResponse data then
    { result := .error (apiErrorMessage data), log := [] }
  else if !isMoviesData data then
    { result := .error "Unexpected response", log := [(url, data)] }
  else
    { result := .ok (resultsList data), log := [] }

/-- `fetchMovies` with the `languageCode = "en-US"` default applied. -/
def fetchMoviesDefault (endpoint : Endpoint) (apiKey : String)
    (data : Json) : Response (List Json) :=
  fetchMovies endpoint apiKey "en-US" data

/-- The request URL built by `fetchConfiguration`. -/
def configurationUrl (apiKey : String) : String :=
  baseUrl ++ "/configuration?api_key=" ++ apiKey

/-- Source `fetchConfiguration`: classify and either return the whole payload
or throw.  The source has no `console.error` call in this function. -/
def fetchConfiguration (apiKey : String) (data : Json) : Response Json :=
  if isErrorResponse data then
    { result := .error (apiErrorMessage data), log := [] }
  else if !isMoviesAPIConfiguration data then
    { result := .error "Unexpected response", log := [] }
  else
    { result := .ok data, log := [] }

/-- The request URL built by `fetchLanguageCodes`. -/
def languagesUrl (apiKey : String) : String :=
  baseUrl ++ "/configuration/languages?api_key=" ++ apiKey

/-- The mapping `data.map(item => item.iso_639_1)` on the success branch. -/
def languageCodesOf (data : Json) : List Json :=
  match data with
  | .arr xs => xs.map (fun item => (getKey item "iso_639_1").getD .undefined)
  | _ => []

/-- Source `fetchLanguageCodes`: classify and either return the ISO codes in
payload order or throw.  No `console.error` call in this function. -/
def fetchLanguageCodes (apiKey : String) (data : Json) : Response (List Json) :=
  if isErrorResponse data then
    { result := .error (apiErrorMessage data), log := [] }
  else if !isLanguageArray data then
    { result := .error "Unexpected response", log := [] }
  else
    { result := .ok (languageCodesOf data), log := [] }

/-- String content of a `Json.str` (total helper for the module-init model). -/
def asString : Json → String
  | .str s => s
  | _ => ""

/-- Module initialization: the source reads the environment value and runs
`invariant(envApiKey && typeof envApiKey === "string", ...)`, which throws
with the given message when the condition is falsy; otherwise the exact value
becomes the module's `apiKey`. -/
def initApiKey (envApiKey : Json) : Except String String :=
  if truthy envApiKey && isStringType envApiKey then
    .ok (asString envApiKey)
  else
    .error "VITE_MOVIES_API_KEY key is required"

/-- Substring containment, used to state that an error message contains a
given fragment. -/
def containsStr (s sub : String) : Prop :=
  ∃ a b, s = a ++ sub ++ b

theorem string_append_assoc (a b c : String) : a ++ b ++ c = a ++ (b ++ c) := by
  apply String.ext
  simp [String.data_append]

/-- C1: for every endpoint and every object payload carrying a `results` field
holding an array, and missing at least one of the error-envelope keys,
`fetchMovies` returns exactly that `results` array, unchanged and in the order
the server returned it (no re-sorting, filtering, or element modification). -/
theorem fetchMovies_returns_results (endpoint : Endpoint)
    (apiKey languageCode : String) (fields : List (String × Json)) (rs : List Json)
    (hres : lookupField fields "results" = some (Json.arr rs))
    (herr : hasKey (Json.obj fields) "status_code" = false ∨
      hasKey (Json.obj fields) "status_message" = false) :
    (fetchMovies endpoint apiKey languageCode (Json.obj fields)).result =
      Except.ok rs := by
  have herr' : isErrorResponse (Json.obj fields) = false := by
    rcases herr with h | h <;> simp [isErrorResponse, truthy, isObjectType, h]
  have hmov : isMoviesData (Json.obj fields) = true := by
    simp [isMoviesData, truthy, isObjectType, hasKey, getKey, hres, isArray]
  simp [fetchMovies, herr', hmov, resultsList, getKey, hres]

/-- Witness for C1: a concrete payload with one movie object. -/
theorem fetchMovies_returns_results_witness :
    lookupField [("results", Json.arr [Json.obj [("id", Json.num 1)]])] "results" =
        some (Json.arr [Json.obj [("id", Json.num 1)]]) ∧
    hasKey (Json.obj [("results", Json.arr [Json.obj [("id", Json.num 1)]])])
        "status_code" = false ∧
    (fetchMovies .popular "key" "en-US"
        (Json.obj [("results", Json.arr [Json.obj [("id", Json.num 1)]])])).result =
      Except.ok [Json.obj [("id", Json.num 1)]] :=
  ⟨rfl, rfl,
    fetchMovies_returns_results .popular "key" "en-US"
      [("results", Json.arr [Json.obj [("id", Json.num 1)]])]
      [Json.obj [("id", Json.num 1)]] rfl (Or.inl rfl)⟩

/-- C2: every payload of the API-error shape (a truthy object-typed value whose
`status_code` and `status_message` keys are present) makes both `fetchMovies`
and `fetchConfiguration` fail with the message built from the status code and
status message, and that message contains the stringified code and the
stringified message.  The hypotheses do not exclude the success shapes, so the
theorem also shows the error-shape check takes precedence. -/
theorem fetch_errorEnvelope_message (endpoint : Endpoint)
    (apiKey languageCode : String) (data c m : Json)
    (ht : truthy data = true) (hty : isObjectType data = true)
    (hc : getKey data "status_code" = some c)
    (hm : getKey data "status_message" = some m) :
    (fetchMovies endpoint apiKey languageCode data).result =
        Except.error (apiErrorMessage data) ∧
    (fetchConfiguration apiKey data).result =
        Except.error (apiErrorMessage data) ∧
    containsStr (apiErrorMessage data) (jsToString c) ∧
    containsStr (apiErrorMessage data) (jsToString m) := by
  have herr : isErrorResponse data = true := by
    simp [isErrorResponse, ht, hty, hasKey, hc, hm]
  have hmsg : apiErrorMessage data = jsToString c ++ ": " ++ jsToString m := by
    simp [apiErrorMessage, hc, hm]
  refine ⟨by simp [fetchMovies, herr], by simp [fetchConfiguration, herr], ?_, ?_⟩
  · exact ⟨"", ": " ++ jsToString m,
      by simp [hmsg, string_append_assoc, String.empty_append]⟩
  · exact ⟨jsToString c ++ ": ", "", by simp [hmsg, String.append_empty]⟩

/-- The error payload from the spec's example. -/
def errorPayloadExample : Json :=
  Json.obj [("status_code", Json.num 7),
    ("status_message", Json.str "Invalid API key"), ("success", Json.bool false)]

/-- Witness for C2 at the spec's example payload; the raised message is
exactly the code and message joined by a colon. -/
theorem fetch_errorEnvelope_message_witness :
    truthy errorPayloadExample = true ∧ isObjectType errorPayloadExample = true ∧
    getKey errorPayloadExample "status_code" = some (Json.num 7) ∧
    getKey errorPayloadExample "status_message" = some (Json.str "Invalid API key") ∧
    apiErrorMessage errorPayloadExample = "7: Invalid API key" ∧
    ((fetchMovies .popular "key" "en-US" errorPayloadExample).result =
        Except.error (apiErrorMessage errorPayloadExample) ∧
      (fetchConfiguration "key" errorPayloadExample).result =
        Except.error (apiErrorMessage errorPayloadExample) ∧
      containsStr (apiErrorMessage errorPayloadExample) (jsToString (Json.num 7)) ∧
      containsStr (apiErrorMessage errorPayloadExample)
        (jsToString (Json.str "Invalid API key"))) :=
  ⟨rfl, rfl, rfl, rfl, rfl,
    fetch_errorEnvelope_message .popular "key" "en-US" errorPayloadExample
      (Json.num 7) (Json.str "Invalid API key") rfl rfl rfl rfl⟩

/-- C9: any object payload with both `status_code` and `status_message` keys,
whatever the types of their values and whatever other fields are present, is
classified as a remote API error by all three fetch functions, which all throw
and never return a success value. -/
theorem errorEnvelope_always_thrown (endpoint : Endpoint)
    (apiKey languageCode : String) (fields : List (String × Json))
    (hc : hasKey (Json.obj fields) "status_code" = true)
    (hm : hasKey (Json.obj fields) "status_message" = true) :
    (fetchMovies endpoint apiKey languageCode (Json.obj fields)).result =
        Except.error (apiErrorMessage (Json.obj fields)) ∧
    (fetchConfiguration apiKey (Json.obj fields)).result =
        Except.error (apiErrorMessage (Json.obj fields)) ∧
    (fetchLanguageCodes apiKey (Json.obj fields)).result =
        Except.error (apiErrorMessage (Json.obj fields)) := by
  have herr : isErrorResponse (Json.obj fields) = true := by
    simp [isErrorResponse, truthy, isObjectType, hc, hm]
  exact ⟨by simp [fetchMovies, herr], by simp [fetchConfiguration, herr],
    by simp [fetchLanguageCodes, herr]⟩

/-- An error envelope with non-number code, non-string message, and a valid
`results` array alongside. -/
def oddErrorPayload : Json :=
  Json.obj [("status_code", Json.str "oops"), ("status_message", Json.arr [Json.num 1]),
    ("results", Json.arr []), ("success", Json.bool true)]

/-- Witness for C9: the envelope keys hold values of the wrong types and a
valid `results` array is present, yet all three functions throw. -/
theorem errorEnvelope_always_thrown_witness :
    hasKey oddErrorPayload "status_code" = true ∧
    hasKey oddErrorPayload "status_message" = true ∧
    isMoviesData oddErrorPayload = true ∧
    ((fetchMovies .top_rated "key" "en-US" oddErrorPayload).result =
        Except.error (apiErrorMessage oddErrorPayload) ∧
      (fetchConfiguration "key" oddErrorPayload).result =
        Except.error (apiErrorMessage oddErrorPayload) ∧
      (fetchLanguageCodes "key" oddErrorPayload).result =
        Except.error (apiErrorMessage oddErrorPayload)) :=
  ⟨rfl, rfl, rfl,
    errorEnvelope_always_thrown .top_rated "key" "en-US"
      [("status_code", Json.str "oops"), ("status_message", Json.arr [Json.num 1]),
        ("results", Json.arr []), ("success", Json.bool true)] rfl rfl⟩

/-- C3: classification is total and exclusive.  A success value comes back only
when the payload is neither an error envelope nor malformed, and it is the
fully validated value; every payload falls in exactly one of the three classes;
and the empty object makes `fetchMovies` fail with "Unexpected response". -/
theorem fetch_classification (endpoint : Endpoint) (apiKey languageCode : String)
    (data : Json) :
    (fetchMovies endpoint apiKey languageCode (Json.obj [])).result =
        Except.error "Unexpected response" ∧
    (∀ v, (fetchMovies endpoint apiKey languageCode data).result = Except.ok v →
      isErrorResponse data = false ∧ isMoviesData data = true ∧ v = resultsList data) ∧
    (∀ v, (fetchConfiguration apiKey data).result = Except.ok v →
      isErrorResponse data = false ∧ isMoviesAPIConfiguration data = true ∧ v = data) ∧
    (∀ v, (fetchLanguageCodes apiKey data).result = Except.ok v →
      isErrorResponse data = false ∧ isLanguageArray data = true ∧
        v = languageCodesOf data) ∧
    (isErrorResponse data = true ∨
      (isErrorResponse data = false ∧ isMoviesData data = true) ∨
      (isErrorResponse data = false ∧ isMoviesData data = false)) := by
  refine ⟨rfl, ?_, ?_, ?_, ?_⟩
  · intro v hv
    cases herr : isErrorResponse data with
    | true => simp [fetchMovies, herr] at hv
    | false =>
      cases hmov : isMoviesData data with
      | false => simp [fetchMovies, herr, hmov] at hv
      | true =>
        simp [fetchMovies, herr, hmov] at hv
        exact ⟨rfl, rfl, hv.symm⟩
  · intro v hv
    cases herr : isErrorResponse data with
    | true => simp [fetchConfiguration, herr] at hv
    | false =>
      cases hcfg : isMoviesAPIConfiguration data with
      | false => simp [fetchConfiguration, herr, hcfg] at hv
      | true =>
        simp [fetchConfiguration, herr, hcfg] at hv
        exact ⟨rfl, rfl, hv.symm⟩
  · intro v hv
    cases herr : isErrorResponse data with
    | true => simp [fetchLanguageCodes, herr] at hv
    | false =>
      cases hl : isLanguageArray data with
      | false => simp [fetchLanguageCodes, herr, hl] at hv
      | true =>
        simp [fetchLanguageCodes, herr, hl] at hv
        exact ⟨rfl, rfl, hv.symm⟩
  · cases herr : isErrorResponse data with
    | true => exact Or.inl rfl
    | false =>
      cases hmov : isMoviesData data with
      | true => exact Or.inr (Or.inl ⟨rfl, rfl⟩)
      | false => exact Or.inr (Or.inr ⟨rfl, rfl⟩)

/-- Witness for C3: the empty object is rejected, and a payload with an empty
`results` array is fully validated before its (empty) list is returned. -/
theorem fetch_classification_witness :
    (fetchMovies .upcoming "key" "en-US" (Json.obj [])).result =
        Except.error "Unexpected response" ∧
    (isErrorResponse (Json.obj [("results", Json.arr [])]) = false ∧
      isMoviesData (Json.obj [("results", Json.arr [])]) = true ∧
      ([] : List Json) = resultsList (Json.obj [("results", Json.arr [])])) :=
  ⟨(fetch_classification .upcoming "key" "en-US" (Json.obj [])).1,
    (fetch_classification .upcoming "key" "en-US"
        (Json.obj [("results", Json.arr [])])).2.1 [] rfl⟩

/-- C4: `fetchConfiguration` on an object payload (without the error-envelope
keys) whose `images` object carries a string `base_url` returns the payload,
whose `images.base_url` is exactly that string; on the payload whose `images`
object is empty it fails with "Unexpected response". -/
theorem fetchConfiguration_base_url (apiKey : String)
    (fields imgs : List (String × Json)) (s : String)
    (himg : lookupField fields "images" = some (Json.obj imgs))
    (hurl : lookupField imgs "base_url" = some (Json.str s))
    (herr : hasKey (Json.obj fields) "status_code" = false ∨
      hasKey (Json.obj fields) "status_message" = false) :
    ((fetchConfiguration apiKey (Json.obj fields)).result =
        Except.ok (Json.obj fields) ∧
      getKey ((getKey (Json.obj fields) "images").getD Json.undefined) "base_url" =
        some (Json.str s)) ∧
    (fetchConfiguration apiKey (Json.obj [("images", Json.obj [])])).result =
      Except.error "Unexpected response" := by
  have herr' : isErrorResponse (Json.obj fields) = false := by
    rcases herr with h | h <;> simp [isErrorResponse, truthy, isObjectType, h]
  have hcfg : isMoviesAPIConfiguration (Json.obj fields) = true := by
    simp [isMoviesAPIConfiguration, truthy, isObjectType, hasKey, getKey, himg,
      hurl, isStringType]
  refine ⟨⟨by simp [fetchConfiguration, herr', hcfg], ?_⟩, rfl⟩
  simp [getKey, himg, hurl]

/-- Witness for C4 at the spec's example payload. -/
theorem fetchConfiguration_base_url_witness :
    lookupField [("images", Json.obj [("base_url", Json.str "http://x/")])] "images" =
        some (Json.obj [("base_url", Json.str "http://x/")]) ∧
    lookupField [("base_url", Json.str "http://x/")] "base_url" =
        some (Json.str "http://x/") ∧
    ((fetchConfiguration "key"
        (Json.obj [("images", Json.obj [("base_url", Json.str "http://x/")])])).result =
      Except.ok (Json.obj [("images", Json.obj [("base_url", Json.str "http://x/")])]) ∧
      getKey ((getKey (Json.obj [("images", Json.obj [("base_url", Json.str "http://x/")])])
          "images").getD Json.undefined) "base_url" = some (Json.str "http://x/")) ∧
    (fetchConfiguration "key" (Json.obj [("images", Json.obj [])])).result =
      Except.error "Unexpected response" :=
  ⟨rfl, rfl,
    fetchConfiguration_base_url "key"
      [("images", Json.obj [("base_url", Json.str "http://x/")])]
      [("base_url", Json.str "http://x/")] "http://x/" rfl rfl (Or.inl rfl)⟩

/-- C5: `fetchLanguageCodes` on an array of objects each carrying the
`english_name`, `iso_639_1` and `name` keys returns exactly the `iso_639_1`
values in payload order; on any non-array payload that is not an error
envelope it fails with "Unexpected response". -/
theorem fetchLanguageCodes_codes (apiKey : String) (xs : List Json)
    (hall : ∀ item ∈ xs, ∃ fs, item = Json.obj fs ∧
      hasKey item "english_name" = true ∧ hasKey item "iso_639_1" = true ∧
      hasKey item "name" = true) :
    ((fetchLanguageCodes apiKey (Json.arr xs)).result =
      Except.ok (xs.map fun item => (getKey item "iso_639_1").getD Json.undefined)) ∧
    ∀ d : Json, isArray d = false → isErrorResponse d = false →
      (fetchLanguageCodes apiKey d).result = Except.error "Unexpected response" := by
  constructor
  · have herr : isErrorResponse (Json.arr xs) = false := rfl
    have hlang : isLanguageArray (Json.arr xs) = true := by
      simp [isLanguageArray, truthy, isArray, List.all_eq_true]
      intro item hmem
      obtain ⟨fs, hfs, h1, h2, h3⟩ := hall item hmem
      subst hfs
      simp [isLanguageItem, truthy, isObjectType, h1, h2, h3]
    simp [fetchLanguageCodes, herr, hlang, languageCodesOf]
  · intro d hd herrd
    have hlang : isLanguageArray d = false := by
      simp [isLanguageArray, hd]
    simp [fetchLanguageCodes, herrd, hlang]

/-- Witness for C5 at the spec's example catalog of one language. -/
theorem fetchLanguageCodes_codes_witness :
    (∀ item ∈ [Json.obj [("english_name", Json.str "English"),
        ("iso_639_1", Json.str "en"), ("name", Json.str "English")]],
      ∃ fs, item = Json.obj fs ∧ hasKey item "english_name" = true ∧
        hasKey item "iso_639_1" = true ∧ hasKey item "name" = true) ∧
    (fetchLanguageCodes "key"
        (Json.arr [Json.obj [("english_name", Json.str "English"),
          ("iso_639_1", Json.str "en"), ("name", Json.str "English")]])).result =
      Except.ok [Json.str "en"] ∧
    isArray (Json.num 3) = false ∧ isErrorResponse (Json.num 3) = false ∧
    (fetchLanguageCodes "key" (Json.num 3)).result =
      Except.error "Unexpected response" := by
  have hall : ∀ item ∈ [Json.obj [("english_name", Json.str "English"),
      ("iso_639_1", Json.str "en"), ("name", Json.str "English")]],
      ∃ fs, item = Json.obj fs ∧ hasKey item "english_name" = true ∧
        hasKey item "iso_639_1" = true ∧ hasKey item "name" = true := by
    intro item hmem
    simp only [List.mem_singleton] at hmem
    subst hmem
    exact ⟨_, rfl, rfl, rfl, rfl⟩
  refine ⟨hall, ?_, rfl, rfl, ?_⟩
  · simpa using (fetchLanguageCodes_codes "key" _ hall).1
  · exact (fetchLanguageCodes_codes "key" [] (by simp)).2 (Json.num 3) rfl rfl

/-- C10: the empty array passes `isLanguageArray` (the per-element check holds
vacuously) and `fetchLanguageCodes` returns the empty list of codes. -/
theorem fetchLanguageCodes_empty_array (apiKey : String) :
    isLanguageArray (Json.arr []) = true ∧
    (fetchLanguageCodes apiKey (Json.arr [])).result = Except.ok [] :=
  ⟨rfl, rfl⟩

/-- Counterexample to C6: `fetchConfiguration` on the empty object raises the
"Unexpected response" error without logging anything, so it is not the case
that every fetch function logs the offending context before raising it. -/
theorem fetchConfiguration_unexpected_without_log :
    (fetchConfiguration "key" (Json.obj [])).result =
        Except.error "Unexpected response" ∧
    (fetchConfiguration "key" (Json.obj [])).log = [] :=
  ⟨rfl, rfl⟩

/-- C6 as amended: diagnostic logging happens on the unexpected-response branch
and only there, but only in `fetchMovies`, which logs the request URL and the
payload; `fetchConfiguration` and `fetchLanguageCodes` raise their
"Unexpected response" error without logging, and no success or remote-error
branch produces diagnostic output. -/
theorem diagnostic_logging_branches (endpoint : Endpoint)
    (apiKey languageCode : String) (data : Json) :
    (isErrorResponse data = false → isMoviesData data = false →
      (fetchMovies endpoint apiKey languageCode data).log =
        [(fetchMoviesUrl endpoint apiKey languageCode, data)]) ∧
    (isErrorResponse data = true →
      (fetchMovies endpoint apiKey languageCode data).log = []) ∧
    (isMoviesData data = true →
      (fetchMovies endpoint apiKey languageCode data).log = []) ∧
    (fetchConfiguration apiKey data).log = [] ∧
    (fetchLanguageCodes apiKey data).log = [] := by
  refine ⟨?_, ?_, ?_, ?_, ?_⟩
  · intro herr hmov
    simp [fetchMovies, herr, hmov]
  · intro herr
    simp [fetchMovies, herr]
  · intro hmov
    cases herr : isErrorResponse data <;> simp [fetchMovies, herr, hmov]
  · cases herr : isErrorResponse data <;>
      cases hcfg : isMoviesAPIConfiguration data <;>
        simp [fetchConfiguration, herr, hcfg]
  · cases herr : isErrorResponse data <;>
      cases hl : isLanguageArray data <;>
        simp [fetchLanguageCodes, herr, hl]

/-- Witness for the amended C6: on `null`, `fetchMovies` logs the URL and the
payload before raising "Unexpected response". -/
theorem diagnostic_logging_branches_witness :
    isErrorResponse Json.null = false ∧ isMoviesData Json.null = false ∧
    (fetchMovies .now_playing "key" "en-US" Json.null).log =
      [(fetchMoviesUrl .now_playing "key" "en-US", Json.null)] :=
  ⟨rfl, rfl,
    (diagnostic_logging_branches .now_playing "key" "en-US" Json.null).1 rfl rfl⟩

/-- Counterexample to C7: the empty string is a present string value, yet the
module-initialization invariant rejects it, because the check tests JS
truthiness of the value before its type and the empty string is falsy. -/
theorem initApiKey_empty_string_fails :
    isStringType (Json.str "") = true ∧
    initApiKey (Json.str "") = Except.error "VITE_MOVIES_API_KEY key is required" :=
  ⟨rfl, rfl⟩

/-- C7 as amended: module initialization fails with the fatal configuration
error when the externally supplied API key is absent, not a string, or the
empty string; any non-empty string is accepted and that exact string becomes
the API key, appearing verbatim in every request URL. -/
theorem initApiKey_spec (s : String) (v : Json) (endpoint : Endpoint)
    (languageCode : String) :
    (s ≠ "" → initApiKey (Json.str s) = Except.ok s ∧
      containsStr (fetchMoviesUrl endpoint s languageCode) s) ∧
    (isStringType v = false →
      initApiKey v = Except.error "VITE_MOVIES_API_KEY key is required") ∧
    initApiKey (Json.str "") = Except.error "VITE_MOVIES_API_KEY key is required" := by
  refine ⟨?_, ?_, rfl⟩
  · intro hs
    have hb : (s != "") = true := bne_iff_ne.mpr hs
    refine ⟨by simp [initApiKey, truthy, isStringType, asString, hb], ?_⟩
    exact ⟨baseUrl ++ "/movie/" ++ endpoint.toApiString ++ "?api_key=",
      "&language=" ++ languageCode, by simp [fetchMoviesUrl, string_append_assoc]⟩
  · intro hv
    have hc : (truthy v && isStringType v) = false := by simp [hv]
    simp [initApiKey, hc]

/-- Witness for the amended C7 at a non-empty key and a non-string value. -/
theorem initApiKey_spec_witness :
    ("KEY" : String) ≠ "" ∧ isStringType (Json.num 3) = false ∧
    ((initApiKey (Json.str "KEY") = Except.ok "KEY" ∧
        containsStr (fetchMoviesUrl .popular "KEY" "en-US") "KEY") ∧
      initApiKey (Json.num 3) = Except.error "VITE_MOVIES_API_KEY key is required") :=
  ⟨by decide, rfl,
    ⟨(initApiKey_spec "KEY" (Json.num 3) .popular "en-US").1 (by decide),
      (initApiKey_spec "KEY" (Json.num 3) .popular "en-US").2.1 rfl⟩⟩

/-- C8: the request URL of `fetchMovies` is the deterministic concatenation of
the base URL, the endpoint path segment, the API key and the language code,
with the language defaulting to en-US when omitted; `fetchConfiguration` and
`fetchLanguageCodes` address the configuration and language-catalog paths with
the API key and no language parameter. -/
theorem request_url_construction (apiKey languageCode : String) :
    fetchMoviesUrl .popular apiKey languageCode =
        "https://api.themoviedb.org/3/movie/popular?api_key=" ++ apiKey ++
          "&language=" ++ languageCode ∧
    fetchMoviesUrl .top_rated apiKey languageCode =
        "https://api.themoviedb.org/3/movie/top_rated?api_key=" ++ apiKey ++
          "&language=" ++ languageCode ∧
    fetchMoviesUrl .upcoming apiKey languageCode =
        "https://api.themoviedb.org/3/movie/upcoming?api_key=" ++ apiKey ++
          "&language=" ++ languageCode ∧
    fetchMoviesUrl .now_playing apiKey languageCode =
        "https://api.themoviedb.org/3/movie/now_playing?api_key=" ++ apiKey ++
          "&language=" ++ languageCode ∧
    (∀ (endpoint : Endpoint) (data : Json),
      fetchMoviesDefault endpoint apiKey data =
        fetchMovies endpoint apiKey "en-US" data) ∧
    configurationUrl apiKey =
        "https://api.themoviedb.org/3/configuration?api_key=" ++ apiKey ∧
    languagesUrl apiKey =
        "https://api.themoviedb.org/3/configuration/languages?api_key=" ++ apiKey :=
  ⟨rfl, rfl, rfl, rfl, fun _ _ => rfl, rfl, rfl⟩
